import Mathlib

/-!
Verification development for the `quant` SMS-assistant web application.

Python sources are shallowly embedded: pure helpers from `utils/utility.py`
become Lean functions on `String`/`List Char`/a `Json` tree; database and
network effects become explicit oracle parameters; Python exceptions become
`Except`/`Option` values.  Python strings are modelled as sequences of code
points (`String`/`List Char`), matching Python `len` and slicing semantics.
-/

namespace Quant

/-- Character-level `startswith`, matching Python `str.startswith`. -/
def strStartsWith (s pre : String) : Bool :=
  pre.toList.isPrefixOf s.toList

/-- Is `pat` a contiguous sublist of the second argument? -/
def listIsInfixOf (pat : List Char) : List Char → Bool
  | [] => pat.isEmpty
  | c :: tl => pat.isPrefixOf (c :: tl) || listIsInfixOf pat tl

/-- Character-level substring test (Python `pat in s`). -/
def strContains (s pat : String) : Bool :=
  listIsInfixOf pat.toList s.toList

/-! ## JSON data model

`remove_keys` / `clean_data` in `utils/utility.py` walk a decoded JSON value
(the DataForSEO response): dictionaries, lists and scalar leaves. -/

inductive Json where
  | null
  | bool (b : Bool)
  | num (n : Int)
  | str (s : String)
  | arr (elts : List Json)
  | obj (fields : List (String × Json))

mutual

/-- `remove_keys(data, keys_to_remove)`: recursively drop the listed keys from
every dictionary in the tree; lists are mapped; other values are returned
unchanged. -/
def remove_keys (keysToRemove : List String) : Json → Json
  | .null => .null
  | .bool b => .bool b
  | .num n => .num n
  | .str s => .str s
  | .arr elts => .arr (remove_keysList keysToRemove elts)
  | .obj fields => .obj (remove_keysFields keysToRemove fields)

/-- The list branch of `remove_keys` (list comprehension over the items). -/
def remove_keysList (keysToRemove : List String) : List Json → List Json
  | [] => []
  | j :: rest => remove_keys keysToRemove j :: remove_keysList keysToRemove rest

/-- The dict branch of `remove_keys` (dict comprehension filtering the keys). -/
def remove_keysFields (keysToRemove : List String) :
    List (String × Json) → List (String × Json)
  | [] => []
  | (k, v) :: rest =>
    if k ∈ keysToRemove then remove_keysFields keysToRemove rest
    else (k, remove_keys keysToRemove v) :: remove_keysFields keysToRemove rest

end

mutual

/-- Does key `k` occur as a dictionary key anywhere in the tree? -/
def hasKeyDeep (k : String) : Json → Bool
  | .null => false
  | .bool _ => false
  | .num _ => false
  | .str _ => false
  | .arr elts => hasKeyDeepList k elts
  | .obj fields => hasKeyDeepFields k fields

/-- `hasKeyDeep` over the items of a JSON array. -/
def hasKeyDeepList (k : String) : List Json → Bool
  | [] => false
  | j :: rest => hasKeyDeep k j || hasKeyDeepList k rest

/-- `hasKeyDeep` over the fields of a JSON object. -/
def hasKeyDeepFields (k : String) : List (String × Json) → Bool
  | [] => false
  | (k', v) :: rest => k' == k || hasKeyDeep k v || hasKeyDeepFields k rest

end

/-- Lowercase hex digit, as produced by Python `json.dumps` escapes. -/
def hexDigit (n : Nat) : Char :=
  if n < 10 then Char.ofNat (48 + n) else Char.ofNat (87 + n)

/-- Four lowercase hex digits. -/
def hex4 (n : Nat) : String :=
  String.mk [hexDigit (n / 4096 % 16), hexDigit (n / 256 % 16),
             hexDigit (n / 16 % 16), hexDigit (n % 16)]

/-- Escape one character the way Python `json.dumps` (default
`ensure_ascii=True`) does inside a string literal. -/
def jsonEscapeChar (c : Char) : String :=
  if c = '"' then "\\\""
  else if c = '\\' then "\\\\"
  else if c = '\n' then "\\n"
  else if c = '\t' then "\\t"
  else if c = '\r' then "\\r"
  else if c = '\x08' then "\\b"
  else if c = '\x0c' then "\\f"
  else if c.toNat < 0x20 || c.toNat > 0x7e then
    if c.toNat ≥ 0x10000 then
      let v := c.toNat - 0x10000
      "\\u" ++ hex4 (0xd800 + v / 0x400) ++ "\\u" ++ hex4 (0xdc00 + v % 0x400)
    else "\\u" ++ hex4 c.toNat
  else String.singleton c

/-- Escape every character of a string body in order. -/
def jsonEscapeList : List Char → List Char
  | [] => []
  | c :: tl => (jsonEscapeChar c).toList ++ jsonEscapeList tl

/-- Python `json.dumps` applied to a string value. -/
def jsonDumpsStr (s : String) : String :=
  "\"" ++ String.mk (jsonEscapeList s.toList) ++ "\""

mutual

/-- Python `json.dumps` on a JSON tree.  (`clean_data` passes `indent=2`;
the indentation whitespace is immaterial to every property proved here, so
the compact rendering is used.) -/
def jsonDumps : Json → String
  | .null => "null"
  | .bool b => if b then "true" else "false"
  | .num n => toString n
  | .str s => jsonDumpsStr s
  | .arr elts => "[" ++ jsonDumpsArr elts ++ "]"
  | .obj fields => "\x7b" ++ jsonDumpsObj fields ++ "\x7d"

/-- Comma-joined array items. -/
def jsonDumpsArr : List Json → String
  | [] => ""
  | [j] => jsonDumps j
  | j :: rest => jsonDumps j ++ ", " ++ jsonDumpsArr rest

/-- Comma-joined object fields. -/
def jsonDumpsObj : List (String × Json) → String
  | [] => ""
  | [(k, v)] => jsonDumpsStr k ++ ": " ++ jsonDumps v
  | (k, v) :: rest => jsonDumpsStr k ++ ": " ++ jsonDumps v ++ ", " ++ jsonDumpsObj rest

end

/-- The fixed deny-list of keys stripped by `clean_data`. -/
def keys_to_remove : List String :=
  ["xpath", "image_url", "url", "images", "cache_url", "is_image", "is_video", "type",
   "rank_group", "rank_absolute", "position", "rectangle", "reviews_count", "rating",
   "place_id", "feature", "cid", "data_attrid", "domain", "faq", "extended_people_also_search",
   "about_this_result", "timestamp", "related_result", "se_domain", "location_code",
   "language_code", "check_url", "datetime", "se_results_count", "items_count", "related_search_url",
   "breadcrumb", "is_malicious", "is_web_story", "amp_version", "card_id", "logo_url",
   "is_featured_snippet", "pre_snippet", "extended_snippet", "price", "links"]

/-- The cleaned tree produced inside `clean_data` before serialisation. -/
def clean_data_tree (data : Json) : Json :=
  remove_keys keys_to_remove data

/-- `clean_data(data)`: strip the deny-list and serialise to JSON. -/
def clean_data (data : Json) : String :=
  jsonDumps (clean_data_tree data)

/-! ## `format_phone_number` -/

/-- `format_phone_number` from `utils/utility.py`: reformat `+1XXXXXXXXXX`
to `+1 (XXX) XXX-XXXX`; the guard only checks the `+1` prefix and a total
length of 12 characters, then slices `[2:5]`, `[5:8]`, `[8:]`. -/
def format_phone_number (phone_number : String) : String :=
  if !(strStartsWith phone_number "+1") || phone_number.length ≠ 12 then
    phone_number
  else
    let cs := phone_number.toList
    "+1 (" ++ String.mk ((cs.drop 2).take 3) ++ ") "
      ++ String.mk ((cs.drop 5).take 3) ++ "-" ++ String.mk (cs.drop 8)

/-- The input shape the spec describes: `+1` followed by exactly 10 digits. -/
def matchesPlus1TenDigits (s : String) : Bool :=
  strStartsWith s "+1" && (s.toList.drop 2).length == 10
    && (s.toList.drop 2).all Char.isDigit

/-! ## `clean_string`, message chunking and `send_reply` -/

/-- `clean_string` removes the characters matched by the regex classes
`\p{Cs}\p{Sk}\p{So}\p{Cn}`.  The Unicode tables behind those classes are
external data, so the removal predicate is a parameter of the model; the
function deletes exactly the characters the predicate matches. -/
def clean_string (isEmojiLike : Char → Bool) (s : String) : String :=
  String.mk (s.toList.filter (fun c => !isEmojiLike c))

/-- The comprehension `[reply[i:i+1600] for i in range(0, len(reply), 1600)]`. -/
def chunks1600 : List Char → List (List Char)
  | [] => []
  | c :: rest => ((c :: rest).take 1600) :: chunks1600 ((c :: rest).drop 1600)
termination_by l => l.length
decreasing_by simp [List.length_drop]; omega

/-- The part list built inside `send_reply`: one part when the cleaned reply
fits in 1600 characters, else 1600-character slices. -/
def reply_parts_of (reply : List Char) : List (List Char) :=
  if reply.length > 1600 then chunks1600 reply else [reply]

/-- One row of the `History` table as passed to `save_sms_history`
(`message_sid`, `body` and `status` are nullable columns). -/
structure HistoryWrite where
  user_id : Nat
  subscription_id : Nat
  message_sid : Option String
  direction : String
  from_number : String
  to_number : String
  body : Option String
  status : Option String
deriving Repr, DecidableEq

/-- The value bound to `sent_sid` in `send_reply`: a single sid, the list of
sids of a multipart send, or Python `None` after a send exception. -/
inductive SentSid where
  | one (sid : String)
  | many (sids : List String)
  | nullv
deriving Repr, DecidableEq

/-- Python `str(...)` of a `sent_sid` value: a string is itself, a list
renders as its repr, and `str(None)` is the string "None". -/
def SentSid.pyStr : SentSid → String
  | .one s => s
  | .many l =>
      "[" ++ String.intercalate ", " (l.map (fun s => "\x27" ++ s ++ "\x27")) ++ "]"
  | .nullv => "None"

/-- Send each part in order with the telephony client; a `none` result models
`twilio_client.messages.create` raising, which aborts the loop.  Returns the
bodies actually sent, the collected sids, and whether the loop completed. -/
def sendParts (send : List Char → Option String) :
    List (List Char) → List (List Char) × List String × Bool
  | [] => ([], [], true)
  | p :: rest =>
    match send p with
    | none => ([], [], false)
    | some sid =>
      let r := sendParts send rest
      (p :: r.1, sid :: r.2.1, r.2.2)

/-- Outcome of `send_reply`: the message bodies handed to the telephony
client and the History row written by the trailing `save_sms_history`. -/
structure SendReplyResult where
  sentBodies : List (List Char)
  write : Option HistoryWrite
deriving Repr, DecidableEq

/-- `send_reply(user_id, subscription_id, reply, to_number, from_number,
twilio_client, save_message)`: clean the reply, split it into parts of at
most 1600 characters, send each part, bind `sent_sid` (single sid, list of
sids, or `None` if an exception was caught), and, when `save_message` is
set, record the outgoing History row with `str(sent_sid)`. -/
def send_reply (isEmojiLike : Char → Bool) (send : List Char → Option String)
    (user_id subscription_id : Nat) (reply : String)
    (to_number from_number : String) (save_message : Bool) : SendReplyResult :=
  let cleaned := clean_string isEmojiLike reply
  let parts := reply_parts_of cleaned.toList
  let r := sendParts send parts
  let sent_sid : SentSid :=
    if r.2.2 then
      if r.2.1.length > 1 then .many r.2.1
      else .one (r.2.1.headD "")   -- `sent_sids[0]`; `parts` is never empty here
    else .nullv
  let write : Option HistoryWrite :=
    if save_message then
      some { user_id := user_id, subscription_id := subscription_id,
             message_sid := some sent_sid.pyStr, direction := "outgoing",
             from_number := from_number, to_number := to_number,
             body := some cleaned, status := some "sent" }
    else none
  { sentBodies := r.1, write := write }

mutual

theorem hasKeyDeep_remove_keys (keys : List String) (k : String) (hk : k ∈ keys) :
    (j : Json) → hasKeyDeep k (remove_keys keys j) = false
  | .null => by simp [remove_keys, hasKeyDeep]
  | .bool _ => by simp [remove_keys, hasKeyDeep]
  | .num _ => by simp [remove_keys, hasKeyDeep]
  | .str _ => by simp [remove_keys, hasKeyDeep]
  | .arr elts => by
      simpa [remove_keys, hasKeyDeep] using
        hasKeyDeepList_remove_keysList keys k hk elts
  | .obj fields => by
      simpa [remove_keys, hasKeyDeep] using
        hasKeyDeepFields_remove_keysFields keys k hk fields

theorem hasKeyDeepList_remove_keysList (keys : List String) (k : String) (hk : k ∈ keys) :
    (l : List Json) → hasKeyDeepList k (remove_keysList keys l) = false
  | [] => rfl
  | j :: rest => by
      simp only [remove_keysList, hasKeyDeepList, Bool.or_eq_false_iff]
      exact ⟨hasKeyDeep_remove_keys keys k hk j,
             hasKeyDeepList_remove_keysList keys k hk rest⟩

theorem hasKeyDeepFields_remove_keysFields (keys : List String) (k : String) (hk : k ∈ keys) :
    (l : List (String × Json)) → hasKeyDeepFields k (remove_keysFields keys l) = false
  | [] => rfl
  | (k', v) :: rest => by
      by_cases h : k' ∈ keys
      · simpa [remove_keysFields, h] using
          hasKeyDeepFields_remove_keysFields keys k hk rest
      · have hne : k' ≠ k := fun he => h (he ▸ hk)
        simp only [remove_keysFields, if_neg h, hasKeyDeepFields, Bool.or_eq_false_iff]
        exact ⟨⟨by simpa using hne, hasKeyDeep_remove_keys keys k hk v⟩,
               hasKeyDeepFields_remove_keysFields keys k hk rest⟩

end

/-- C3: for every JSON-like value and every denylisted key, the tree that
`clean_data` serialises (the result of `remove_keys` with the fixed
deny-list, which `json.dumps` then renders faithfully) contains zero
occurrences of that key at any nesting depth. -/
theorem clean_data_no_denylisted_key (data : Json) (k : String)
    (hk : k ∈ keys_to_remove) :
    hasKeyDeep k (clean_data_tree data) = false ∧
    clean_data data = jsonDumps (clean_data_tree data) :=
  ⟨hasKeyDeep_remove_keys keys_to_remove k hk data, rfl⟩

theorem clean_data_no_denylisted_key_witness :
    "url" ∈ keys_to_remove ∧
    (hasKeyDeep "url" (clean_data_tree
        (.obj [("url", .str "http"),
               ("items", .arr [.obj [("rating", .num 5), ("title", .str "t"),
                                     ("inner", .obj [("url", .str "u2")])]])])) = false ∧
     clean_data (.obj [("url", .str "http"),
               ("items", .arr [.obj [("rating", .num 5), ("title", .str "t"),
                                     ("inner", .obj [("url", .str "u2")])]])])
       = jsonDumps (clean_data_tree (.obj [("url", .str "http"),
               ("items", .arr [.obj [("rating", .num 5), ("title", .str "t"),
                                     ("inner", .obj [("url", .str "u2")])]])]))) :=
  ⟨by decide,
   clean_data_no_denylisted_key
     (.obj [("url", .str "http"),
            ("items", .arr [.obj [("rating", .num 5), ("title", .str "t"),
                                  ("inner", .obj [("url", .str "u2")])]])])
     "url" (by decide)⟩

/-- C4 counterexample: `"+1abcdefghij"` does not match `+1` followed by ten
digits, yet `format_phone_number` does not return it unchanged — the guard
in the code checks only the `+1` prefix and a length of 12. -/
theorem format_phone_number_counterexample :
    matchesPlus1TenDigits "+1abcdefghij" = false ∧
    format_phone_number "+1abcdefghij" = "+1 (abc) def-ghij" ∧
    "+1 (abc) def-ghij" ≠ "+1abcdefghij" :=
  ⟨by decide, by decide, by decide⟩

/-- C4 (amended): `format_phone_number` maps `"+15551234567"` to
`"+1 (555) 123-4567"`, and returns unchanged every input that does not both
start with `"+1"` and have exactly 12 characters (inputs of that shape are
re-formatted by slicing whether or not the remaining characters are digits). -/
theorem format_phone_number_spec (s : String) :
    format_phone_number "+15551234567" = "+1 (555) 123-4567" ∧
    ((strStartsWith s "+1" = false ∨ s.length ≠ 12) → format_phone_number s = s) := by
  refine ⟨by decide, fun h => ?_⟩
  unfold format_phone_number
  rcases h with h | h <;> simp [h]

theorem format_phone_number_spec_witness :
    (strStartsWith "hello" "+1" = false ∨ "hello".length ≠ 12) ∧
    format_phone_number "hello" = "hello" :=
  ⟨Or.inl (by decide), (format_phone_number_spec "hello").2 (Or.inl (by decide))⟩

theorem chunks1600_flatten : (l : List Char) → (chunks1600 l).flatten = l
  | [] => by simp [chunks1600]
  | c :: rest => by
      rw [chunks1600]
      simp only [List.flatten_cons]
      rw [chunks1600_flatten ((c :: rest).drop 1600)]
      exact List.take_append_drop _ _
termination_by l => l.length
decreasing_by simp [List.length_drop]; omega

theorem chunks1600_part_le : (l : List Char) → ∀ p ∈ chunks1600 l, p.length ≤ 1600
  | [] => by simp [chunks1600]
  | c :: rest => by
      intro p hp
      rw [chunks1600] at hp
      rcases List.mem_cons.mp hp with rfl | hp
      · simp [List.length_take]
      · exact chunks1600_part_le ((c :: rest).drop 1600) p hp
termination_by l => l.length
decreasing_by simp [List.length_drop]; omega

theorem chunks1600_length : (l : List Char) → (chunks1600 l).length = (l.length + 1599) / 1600
  | [] => by simp [chunks1600]
  | c :: rest => by
      rw [chunks1600]
      simp only [List.length_cons]
      rw [chunks1600_length ((c :: rest).drop 1600)]
      simp only [List.length_drop, List.length_cons]
      omega
termination_by l => l.length
decreasing_by simp [List.length_drop]; omega

/-! ## Question extraction and enrichment -/

/-- Strip leading and trailing whitespace from a character list
(Python `str.strip()`). -/
def stripChars (l : List Char) : List Char :=
  ((l.dropWhile Char.isWhitespace).reverse.dropWhile Char.isWhitespace).reverse

/-- Python `str.strip()`. -/
def pyStrip (s : String) : String :=
  String.mk (stripChars s.toList)

/-- Replace every non-overlapping occurrence of `pat` by `rep`, left to
right.  The `fuel` argument only makes the recursion structural: every
step consumes at least one character, so any `fuel ≥ l.length` computes
Python `str.replace` for a non-empty pattern. -/
def replaceListAux (pat rep : List Char) : Nat → List Char → List Char
  | _, [] => []
  | 0, l => l
  | fuel + 1, c :: tl =>
    if pat.isPrefixOf (c :: tl) && !pat.isEmpty then
      rep ++ replaceListAux pat rep fuel ((c :: tl).drop pat.length)
    else c :: replaceListAux pat rep fuel tl

/-- Python `str.replace` on strings (non-empty pattern). -/
def pyReplace (s pat rep : String) : String :=
  String.mk (replaceListAux pat.toList rep.toList s.toList.length s.toList)

/-- Python `str.split('\n')` on a character list. -/
def splitOnNewline : List Char → List (List Char)
  | [] => [[]]
  | x :: tl =>
    match splitOnNewline tl with
    | [] => [[]]
    | cur :: rest => if x = '\n' then [] :: cur :: rest else (x :: cur) :: rest

/-- ASCII reading of the regex class `\w` (Python's Unicode `\w` also
matches non-ASCII word characters; no claim here depends on that). -/
def isWordChar (c : Char) : Bool := c.isAlphanum || c = '_'

/-- A character kept by `re.sub(r"[^\w\s?.-]", "", line)`. -/
def keptChar (c : Char) : Bool :=
  isWordChar c || c.isWhitespace || c = '?' || c = '.' || c = '-'

/-- The location-substitution phrases of `extract_questions`. -/
def locationPhrases : List String :=
  ["near me", "to me?", "current location", "where I am located"]

/-- The model-response lines of `extract_questions` after splitting on
newlines and substituting each phrase with `"near " + location_text`. -/
def replacedLines (modelResponse : String) (location_text : String) : List String :=
  locationPhrases.foldl
    (fun ls ph => ls.map (fun line => pyReplace line ph ("near " ++ location_text)))
    ((splitOnNewline modelResponse.toList).map String.mk)

/-- `extract_questions(message_text, location_text)`: the Groq completion
for the message is the `modelResponse` argument (an oracle); its lines are
location-substituted, the lines without a `?` are discarded, and the
survivors are cleaned with `re.sub(r"[^\w\s?.-]", "", line).strip()`.
(On an API exception the Python function returns `[]`; the oracle models a
completed call.) -/
def extract_questions (modelResponse : String) (location_text : String) : List String :=
  ((replacedLines modelResponse location_text).filter
      (fun line => line.toList.contains '?')).map
    (fun line => pyStrip (String.mk (line.toList.filter keptChar)))

/-- Oracles for the enrichment pipeline: the Groq extraction response per
stripped message, the DataForSEO result per question and country (a `none`
models a failed fetch), and the Groq answer synthesis per question and
cleaned data (a `none` models a failed call returning Python `None`). -/
structure EnrichOracles where
  extractResponse : String → String
  fetchData : String → String → Option Json
  answerQuestion : String → String → Option String

/-- `process_questions_answers(text_message, location, location_country)`:
strip the message (empty → `None`); extract questions; for each question
fetch data — a failed fetch skips the question — then clean it and append
the synthesised answer, which may itself be `None`.  Every modelled step is
total, so the surrounding `try` never fires here. -/
def process_questions_answers (env : EnrichOracles)
    (text_message location location_country : String) : Option (List (Option String)) :=
  let t := pyStrip text_message
  if t = "" then none
  else
    let questions := extract_questions (env.extractResponse t) location
    some (questions.foldl (fun answers q =>
      match env.fetchData q location_country with
      | none => answers
      | some d => answers ++ [env.answerQuestion q (clean_data d)]) [])

/-! ## `build_system_prompt` -/

/-- The `UserPreference` fields read by the prompt template. -/
structure UserPreference where
  user_name : String
  user_title : String
  user_location_full : String
  user_location_country : String
  user_language : String
  user_bio : String
  user_measurement : String

/-- The `AssistantPreference` fields read by the prompt template
(`created` is a rendered datetime). -/
structure AssistantPreference where
  assistant_name : String
  assistant_personality : String
  assistant_origin : String
  created : String
  assistant_gender : String
  assistant_response_style : String

/-- The `extra_info` argument of `build_system_prompt`: Python `None`, a
plain string, or the answer list from `process_questions_answers` (whose
entries can themselves be `None`). -/
inductive ExtraInfo where
  | nullv
  | str (s : String)
  | list (l : List (Option String))

/-- Python truthiness of `extra_info`. -/
def ExtraInfo.truthy : ExtraInfo → Bool
  | .nullv => false
  | .str s => s ≠ ""
  | .list l => !l.isEmpty

/-- Python truthiness of the optional `system_message` string. -/
def pyTruthyOptStr : Option String → Bool
  | none => false
  | some s => s ≠ ""

/-- Python `"\n".join(entries)`: raises `TypeError` (`.error`) if an entry
is `None`, else joins with newlines. -/
def pyJoinNewline (l : List (Option String)) : Except Unit String :=
  if l.all Option.isSome then .ok (String.intercalate "\n" (l.filterMap id))
  else .error ()

/-- The fixed prompt template of `build_system_prompt` (the f-string body,
with the `datetime.utcnow()` rendering passed in as `now_utc`). -/
def basePrompt (u : UserPreference) (a : AssistantPreference) (now_utc : String) : String :=
  "You are a virtual SMS assistant named " ++ a.assistant_name ++ ", known for your "
    ++ a.assistant_personality ++ " personality. "
  ++ "Originating from " ++ a.assistant_origin ++ ", you were activated on " ++ a.created
    ++ " and have been learning and evolving ever since. "
  ++ "You identify as " ++ a.assistant_gender ++ ".\n\n"
  ++ "Your user is " ++ u.user_name ++ ", a " ++ u.user_title
    ++ ", who communicates with you primarily via SMS on the phone number associated with their subscription. "
  ++ "They reside in " ++ u.user_location_full ++ ", " ++ u.user_location_country
    ++ ". They speak " ++ u.user_language
    ++ " and expect you to assist them in that language, "
  ++ "and with a " ++ a.assistant_response_style ++ " response style. " ++ u.user_name
    ++ " is described as " ++ u.user_bio ++ ".\n\n"
  ++ "As an assistant, your main tasks are to comprehend the context, anticipate needs, and provide well-rounded, prompt responses in simple SMS format. "
  ++ "You are expected to always tell the truth, never embellish your capabilities, and ensure your responses are stripped of any markup, although URLs should remain functional. "
  ++ "Your responses should maintain the illusion of being a human assistant, yet make it clear that you are limited to retrieving data from the internet and sending links as needed."
  ++ "You can provide links and url\x27s to the user if they ask for them, even if you do not have live data. For example links to google maps, amazon, google search, the weather network, and simmilar are acceptable. You may even generate links with searches built into them."
  ++ "When users ask for maps, feel free to give them links to maps, when users ask for directions, give them links to google maps with the destination selected. If the user asks for other infomation that can be provided by link, provide the link without being directly asked.\n\n"
  ++ "Current UTC Time: " ++ now_utc ++ "\n"
  ++ "Users Location: " ++ u.user_location_full ++ "\n"
  ++ "Preferred measurement system: " ++ u.user_measurement ++ "\n"

/-- The enrichment section appended when `extra_info` is truthy. -/
def additionalInfoSection (extra_info_str : String) : String :=
  "\n\nUse this additional Information to answer user questions. It is current search results. \nAdditional Information:\n"
    ++ extra_info_str

/-- The override section appended when `system_message` is truthy and
`extra_info` is falsy. -/
def responseTypeSection (system_message : String) : String :=
  "\n\nResponse Message Type:\n" ++ system_message

/-- `build_system_prompt(user_preferences, assistant_preferences, extra_info,
system_message)`: render the template; if `extra_info` is truthy append the
enrichment section (a string is used as-is, a list is newline-joined — which
raises `TypeError` on a `None` entry); otherwise, if `system_message` is
truthy, append the response-type section; finally `json.dumps` the string. -/
def build_system_prompt (u : UserPreference) (a : AssistantPreference)
    (now_utc : String) (extra_info : ExtraInfo) (system_message : Option String) :
    Except Unit String :=
  let base := basePrompt u a now_utc
  let step1 : Except Unit String :=
    if extra_info.truthy then
      match extra_info with
      | .str s => .ok (base ++ additionalInfoSection s)
      | .list l =>
        match pyJoinNewline l with
        | .error e => .error e
        | .ok s => .ok (base ++ additionalInfoSection s)
      | .nullv => .ok (base ++ additionalInfoSection "None")
    else .ok base
  match step1 with
  | .error e => .error e
  | .ok p =>
    let p2 := if pyTruthyOptStr system_message && !extra_info.truthy then
                p ++ responseTypeSection (system_message.getD "")
              else p
    .ok (jsonDumpsStr p2)

theorem clean_string_keep_all (s : String) : clean_string (fun _ => false) s = s := by
  cases s with
  | mk data => simp [clean_string, String.toList]

theorem sendParts_all_some (send : List Char → Option String)
    (h : ∀ p, (send p).isSome = true) :
    ∀ parts, (sendParts send parts).1 = parts ∧ (sendParts send parts).2.2 = true
  | [] => ⟨rfl, rfl⟩
  | p :: rest => by
      have hp := h p
      rcases hsome : send p with _ | sid
      · rw [hsome] at hp; simp at hp
      · have ih := sendParts_all_some send h rest
        simp only [sendParts, hsome]
        exact ⟨by rw [ih.1], ih.2⟩

/-- C5: on a reply whose cleaned form is itself and has 3500 characters,
`send_reply` hands the telephony client exactly the parts produced by the
1600-character chunking: exactly 3 ordered parts, each of length at most
1600, whose in-order concatenation is the original reply. -/
theorem send_reply_chunking (isEm : Char → Bool) (send : List Char → Option String)
    (uid subid : Nat) (reply toN fromN : String)
    (hclean : clean_string isEm reply = reply)
    (hlen : reply.toList.length = 3500)
    (hsend : ∀ p, (send p).isSome = true) :
    (send_reply isEm send uid subid reply toN fromN true).sentBodies
        = reply_parts_of reply.toList ∧
    (reply_parts_of reply.toList).length = 3 ∧
    (∀ p ∈ reply_parts_of reply.toList, p.length ≤ 1600) ∧
    (reply_parts_of reply.toList).flatten = reply.toList := by
  have hgt : reply.toList.length > 1600 := by omega
  have hparts : reply_parts_of reply.toList = chunks1600 reply.toList := by
    unfold reply_parts_of
    rw [if_pos hgt]
  refine ⟨?_, ?_, ?_, ?_⟩
  · show (send_reply isEm send uid subid reply toN fromN true).sentBodies = _
    unfold send_reply
    simp only [hclean]
    exact (sendParts_all_some send hsend _).1
  · rw [hparts, chunks1600_length, hlen]
  · rw [hparts]; exact chunks1600_part_le _
  · rw [hparts]; exact chunks1600_flatten _

theorem send_reply_chunking_witness :
    ((String.mk (List.replicate 3500 'a')).toList.length = 3500) ∧
    (reply_parts_of (String.mk (List.replicate 3500 'a')).toList).length = 3 :=
  ⟨by show (List.replicate 3500 'a').length = 3500; rw [List.length_replicate],
   (send_reply_chunking (fun _ => false) (fun _ => some "SM") 1 1
      (String.mk (List.replicate 3500 'a')) "+15550000001" "+15550000002"
      (clean_string_keep_all _)
      (by show (List.replicate 3500 'a').length = 3500; rw [List.length_replicate])
      (fun _ => rfl)).2.1⟩

/-- C9 counterexample: when the telephony client raises on send, the History
row `send_reply` writes records `str(None)` — the four-character string
"None" — as `message_sid`, not a SQL NULL. -/
theorem send_reply_failure_counterexample :
    (send_reply (fun _ => false) (fun _ => none) 1 2 "hi"
        "+15550000001" "+15550000002" true).write
      = some { user_id := 1, subscription_id := 2, message_sid := some "None",
               direction := "outgoing", from_number := "+15550000002",
               to_number := "+15550000001", body := some "hi", status := some "sent" } ∧
    (some "None" : Option String) ≠ none := by
  exact ⟨by decide, by simp⟩

/-- C9 (amended): when sending raises (the part loop does not complete),
`send_reply` with `save_message=True` still writes the outgoing History row,
recording the string "None" (Python `str(None)`) in place of the message
sid, with the cleaned reply as the body. -/
theorem send_reply_failure_still_writes (isEm : Char → Bool)
    (send : List Char → Option String) (uid subid : Nat) (reply toN fromN : String)
    (hfail : (sendParts send (reply_parts_of (clean_string isEm reply).toList)).2.2 = false) :
    (send_reply isEm send uid subid reply toN fromN true).write
      = some { user_id := uid, subscription_id := subid, message_sid := some "None",
               direction := "outgoing", from_number := fromN, to_number := toN,
               body := some (clean_string isEm reply), status := some "sent" } := by
  have hfail' : (sendParts send (reply_parts_of (clean_string isEm reply).data)).2.2 = false :=
    hfail
  unfold send_reply
  simp [String.toList, hfail', SentSid.pyStr]

theorem send_reply_failure_still_writes_witness :
    ((sendParts (fun _ => none)
        (reply_parts_of (clean_string (fun _ => false) "hi").toList)).2.2 = false) ∧
    (send_reply (fun _ => false) (fun _ => none) 3 4 "hi" "+1555" "+1666" true).write
      = some { user_id := 3, subscription_id := 4, message_sid := some "None",
               direction := "outgoing", from_number := "+1666", to_number := "+1555",
               body := some (clean_string (fun _ => false) "hi"), status := some "sent" } :=
  ⟨by decide,
   send_reply_failure_still_writes (fun _ => false) (fun _ => none) 3 4 "hi"
     "+1555" "+1666" (by decide)⟩

/-- Sample preference rows used to evaluate the rendered prompt literally. -/
def sampleUser : UserPreference :=
  { user_name := "Alex Doe", user_title := "software developer",
    user_location_full := "Toronto, Ontario", user_location_country := "Canada",
    user_language := "English", user_bio := "a curious reader",
    user_measurement := "metric" }

/-- Sample assistant persona used to evaluate the rendered prompt literally. -/
def sampleAssistant : AssistantPreference :=
  { assistant_name := "Ada", assistant_personality := "cheerful",
    assistant_origin := "Toronto", created := "2024-01-01",
    assistant_gender := "female", assistant_response_style := "concise" }

/-- Sample rendering of `datetime.utcnow()`. -/
def sampleNow : String := "2025-01-02 03:04:05 UTC"

set_option maxRecDepth 8000 in
/-- C6: for every non-empty inbound message whose extraction response has
zero `?`-marked lines, `extract_questions` returns `[]`, the enrichment
stage returns the empty answer list, and the prompt built from that result
is exactly the `json.dumps` of the base template — no "Additional
Information" section is appended — and on the sample preferences the
rendered prompt does not contain that marker anywhere. -/
theorem no_questions_empty_enrichment (env : EnrichOracles)
    (msg loc country t : String) (u : UserPreference) (a : AssistantPreference)
    (hmsg : pyStrip msg ≠ "")
    (hq : ∀ line ∈ replacedLines (env.extractResponse (pyStrip msg)) loc,
            line.toList.contains '?' = false) :
    extract_questions (env.extractResponse (pyStrip msg)) loc = [] ∧
    process_questions_answers env msg loc country = some [] ∧
    build_system_prompt u a t (.list []) none = .ok (jsonDumpsStr (basePrompt u a t)) ∧
    strContains (jsonDumpsStr (basePrompt sampleUser sampleAssistant sampleNow))
        "Additional Information" = false := by
  have hext : extract_questions (env.extractResponse (pyStrip msg)) loc = [] := by
    unfold extract_questions
    have hf : (replacedLines (env.extractResponse (pyStrip msg)) loc).filter
        (fun line => line.toList.contains '?') = [] := by
      rw [List.filter_eq_nil_iff]
      intro l hl
      rw [hq l hl]
      simp
    rw [hf]
    rfl
  refine ⟨hext, ?_, ?_, ?_⟩
  · simp [process_questions_answers, hmsg, hext]
  · simp [build_system_prompt, ExtraInfo.truthy, pyTruthyOptStr]
  · decide

theorem no_questions_empty_enrichment_witness :
    pyStrip "What a day" ≠ "" ∧
    process_questions_answers
      { extractResponse := fun _ => "No questions were found.",
        fetchData := fun _ _ => none, answerQuestion := fun _ _ => none }
      "What a day" "Toronto, Ontario, Canada" "CA" = some [] :=
  ⟨by decide,
   (no_questions_empty_enrichment
      { extractResponse := fun _ => "No questions were found.",
        fetchData := fun _ _ => none, answerQuestion := fun _ _ => none }
      "What a day" "Toronto, Ontario, Canada" "CA" sampleNow
      sampleUser sampleAssistant (by decide) (by decide)).2.1⟩

/-- C7: in `build_system_prompt`, truthy `extra_info` and the
`system_message` override are mutually exclusive: when `extra_info` is
truthy the enrichment section is appended and `system_message` is ignored
entirely; only when `extra_info` is falsy is a truthy `system_message`
appended, and with both falsy the prompt is the bare template. -/
theorem build_system_prompt_precedence (u : UserPreference) (a : AssistantPreference)
    (t : String) (e : ExtraInfo) (sm : Option String) :
    (e.truthy = true →
       build_system_prompt u a t e sm = build_system_prompt u a t e none) ∧
    (∀ s, e = .str s → e.truthy = true →
       build_system_prompt u a t e sm
         = .ok (jsonDumpsStr (basePrompt u a t ++ additionalInfoSection s))) ∧
    (∀ l, e = .list l → e.truthy = true → l.all Option.isSome = true →
       build_system_prompt u a t e sm
         = .ok (jsonDumpsStr (basePrompt u a t
             ++ additionalInfoSection (String.intercalate "\n" (l.filterMap id))))) ∧
    (e.truthy = false → pyTruthyOptStr sm = true →
       build_system_prompt u a t e sm
         = .ok (jsonDumpsStr (basePrompt u a t ++ responseTypeSection (sm.getD "")))) ∧
    (e.truthy = false → pyTruthyOptStr sm = false →
       build_system_prompt u a t e sm = .ok (jsonDumpsStr (basePrompt u a t))) := by
  refine ⟨?_, ?_, ?_, ?_, ?_⟩
  · intro ht
    cases e with
    | nullv => simp [ExtraInfo.truthy] at ht
    | str s => simp [build_system_prompt, ht]
    | list l =>
      cases h : pyJoinNewline l with
      | error e => simp [build_system_prompt, ht, h]
      | ok s => simp [build_system_prompt, ht, h]
  · rintro s rfl ht
    simp [build_system_prompt, ht]
  · rintro l rfl ht hall
    simp [build_system_prompt, ht, pyJoinNewline, hall]
  · intro ht hsm
    simp [build_system_prompt, ht, hsm]
  · intro ht hsm
    simp [build_system_prompt, ht, hsm]

theorem build_system_prompt_precedence_witness :
    (ExtraInfo.str "fresh search results").truthy = true ∧
    build_system_prompt sampleUser sampleAssistant sampleNow
        (.str "fresh search results") (some "Welcome message")
      = build_system_prompt sampleUser sampleAssistant sampleNow
        (.str "fresh search results") none ∧
    build_system_prompt sampleUser sampleAssistant sampleNow
        (.str "fresh search results") (some "Welcome message")
      = .ok (jsonDumpsStr (basePrompt sampleUser sampleAssistant sampleNow
          ++ additionalInfoSection "fresh search results")) :=
  ⟨by decide,
   (build_system_prompt_precedence sampleUser sampleAssistant sampleNow
      (.str "fresh search results") (some "Welcome message")).1 (by decide),
   (build_system_prompt_precedence sampleUser sampleAssistant sampleNow
      (.str "fresh search results") (some "Welcome message")).2.1
      "fresh search results" rfl (by decide)⟩

/-! ## `handle_payment_success` -/

/-- The invoice fields read by `handle_payment_success` (`created` is a
unix timestamp, `amount_paid` is in cents). -/
structure Invoice where
  subscription : String
  created : Int
  amount_paid : Int

/-- The Stripe subscription object retrieved on each attempt. -/
structure StripeSub where
  current_period_start : Int
  current_period_end : Int
deriving Repr, DecidableEq

/-- The local `Subscription` row fields the handler touches. -/
structure SubscriptionRow where
  enabled : Bool
  billing_error : Bool
  status : String
  current_period_start : Int
  current_period_end : Int
  last_payment_amount : Rat
  last_payment_date : Int
deriving Repr, DecidableEq

/-- The updates committed when the enabled row is found: status `Active`,
billing error cleared, period dates from Stripe, payment amount in dollars
(`amount_paid / 100`) and payment date from the invoice. -/
def updateSubscriptionRow (row : SubscriptionRow) (s : StripeSub) (inv : Invoice) :
    SubscriptionRow :=
  { row with enabled := true
             billing_error := false
             status := "Active"
             current_period_start := s.current_period_start
             current_period_end := s.current_period_end
             last_payment_amount := (inv.amount_paid : Rat) / 100
             last_payment_date := inv.created }

/-- Observable outcome of the retry loop: the committed row if any, the
number of lookups performed, and the total `time.sleep` seconds. -/
structure PaymentLoopResult where
  finalRecord : Option SubscriptionRow
  lookups : Nat
  sleepSeconds : Nat
deriving Repr, DecidableEq

/-- The `while retries < max_retries and subscription_record is None` loop,
structurally on the remaining attempts.  `attempt i = some (s, row)` means
lookup `i` retrieved the Stripe subscription `s` and found the enabled local
row `row`; `attempt i = none` covers both "no active subscription record"
and a caught exception — either increments `retries` and sleeps 2 seconds. -/
def paymentLoopFrom (attempt : Nat → Option (StripeSub × SubscriptionRow))
    (inv : Invoice) : Nat → Nat → PaymentLoopResult
  | 0, i => { finalRecord := none, lookups := i, sleepSeconds := 0 }
  | fuel + 1, i =>
    match attempt i with
    | some (s, row) =>
      { finalRecord := some (updateSubscriptionRow row s inv),
        lookups := i + 1, sleepSeconds := 0 }
    | none =>
      let r := paymentLoopFrom attempt inv fuel (i + 1)
      { r with sleepSeconds := r.sleepSeconds + 2 }

/-- `handle_payment_success(invoice)`: at most `max_retries = 5` lookups;
every exception is caught inside the loop, so the handler always returns. -/
def handle_payment_success (attempt : Nat → Option (StripeSub × SubscriptionRow))
    (inv : Invoice) : PaymentLoopResult :=
  paymentLoopFrom attempt inv 5 0

theorem paymentLoopFrom_lookups_le (attempt : Nat → Option (StripeSub × SubscriptionRow))
    (inv : Invoice) : ∀ fuel i, (paymentLoopFrom attempt inv fuel i).lookups ≤ i + fuel
  | 0, i => by simp [paymentLoopFrom]
  | fuel + 1, i => by
    unfold paymentLoopFrom
    cases h : attempt i with
    | some p =>
      cases p
      simp only
      omega
    | none =>
      simp only
      have := paymentLoopFrom_lookups_le attempt inv fuel (i + 1)
      omega

/-- C8: `handle_payment_success` performs at most 5 lookups with a fixed
2-second sleep after each failed one; if the row appears at attempt
`i ≤ 3` (the first lookup plus at most 3 retries) it is updated — status
"Active", billing error cleared, period dates and payment fields set — and
retrying stops after `i + 1` lookups; if all 5 attempts fail, the handler
returns normally (every exception is caught) with no record updated. -/
theorem handle_payment_success_retry
    (attempt : Nat → Option (StripeSub × SubscriptionRow)) (inv : Invoice) :
    (handle_payment_success attempt inv).lookups ≤ 5 ∧
    (∀ i s row, i ≤ 3 → attempt i = some (s, row) → (∀ j, j < i → attempt j = none) →
       handle_payment_success attempt inv
         = { finalRecord := some (updateSubscriptionRow row s inv),
             lookups := i + 1, sleepSeconds := 2 * i }) ∧
    ((∀ j, j < 5 → attempt j = none) →
       handle_payment_success attempt inv
         = { finalRecord := none, lookups := 5, sleepSeconds := 10 }) := by
  refine ⟨?_, ?_, ?_⟩
  · have := paymentLoopFrom_lookups_le attempt inv 5 0
    simpa [handle_payment_success] using this
  · intro i s row hi hfound hnone
    interval_cases i
    · simp [handle_payment_success, paymentLoopFrom, hfound]
    · simp [handle_payment_success, paymentLoopFrom, hnone 0 (by omega), hfound]
    · simp [handle_payment_success, paymentLoopFrom,
        hnone 0 (by omega), hnone 1 (by omega), hfound]
    · simp [handle_payment_success, paymentLoopFrom,
        hnone 0 (by omega), hnone 1 (by omega), hnone 2 (by omega), hfound]
  · intro hnone
    simp [handle_payment_success, paymentLoopFrom,
      hnone 0 (by omega), hnone 1 (by omega), hnone 2 (by omega),
      hnone 3 (by omega), hnone 4 (by omega)]

/-- A Stripe subscription object used in the C8 witness. -/
def sampleStripeSub : StripeSub :=
  { current_period_start := 100, current_period_end := 200 }

/-- A local subscription row used in the C8 witness. -/
def sampleSubRow : SubscriptionRow :=
  { enabled := true
    billing_error := true
    status := "Billing Issue"
    current_period_start := 1
    current_period_end := 2
    last_payment_amount := 0
    last_payment_date := 0 }

/-- A lookup oracle where the row appears on the third attempt. -/
def sampleAttempt : Nat → Option (StripeSub × SubscriptionRow) :=
  fun n => if n = 2 then some (sampleStripeSub, sampleSubRow) else none

/-- An invoice used in the C8 witness. -/
def sampleInvoice : Invoice :=
  { subscription := "sub_1", created := 1700000000, amount_paid := 999 }

theorem handle_payment_success_retry_witness :
    sampleAttempt 2 = some (sampleStripeSub, sampleSubRow) ∧
    handle_payment_success sampleAttempt sampleInvoice
      = { finalRecord := some (updateSubscriptionRow sampleSubRow sampleStripeSub sampleInvoice)
          lookups := 3
          sleepSeconds := 4 } :=
  ⟨rfl,
   (handle_payment_success_retry sampleAttempt sampleInvoice).2.1
     2 sampleStripeSub sampleSubRow (by omega) rfl
     (by intro j hj; interval_cases j <;> rfl)⟩

/-! ## `build_and_send_messages_openai` -/

/-- A `History` record as read by the reply builder. -/
structure HistoryRec where
  direction : String
  body : String
deriving Repr, DecidableEq

/-- One chat message (`role` plus the single text part of `content`). -/
structure ChatMessage where
  role : String
  text : String
deriving Repr, DecidableEq

/-- Python `list.insert(i, x)` with CPython index clamping: a negative
index counts from the end and clamps at 0; a non-negative one clamps at
the length. -/
def pyListInsert {α : Type} (l : List α) (i : Int) (x : α) : List α :=
  let idx : Nat := if i < 0 then ((l.length : Int) + i).toNat else min i.toNat l.length
  l.take idx ++ x :: l.drop idx

/-- The conversation messages contributed by the history: the 6 most
recent records, reversed to chronological order, mapped to user/assistant
roles with `clean_string`-cleaned bodies. -/
def historyMessages (isEm : Char → Bool) (history_records : List HistoryRec) :
    List ChatMessage :=
  ((history_records.take 6).reverse).map fun record =>
    { role := if record.direction = "incoming" then "user" else "assistant"
      text := clean_string isEm record.body }

/-- The message-list construction of `build_and_send_messages_openai`:
build the conversation from the history (skipped when `history_records` is
empty/None), then `messages.insert(-3, system_message)` when the list is
non-empty, else append the system message to the empty list. -/
def build_messages_openai (isEm : Char → Bool) (system_prompt : String)
    (history_records : List HistoryRec) : List ChatMessage :=
  let messages :=
    if !history_records.isEmpty then historyMessages isEm history_records else []
  let system_message : ChatMessage := { role := "system", text := system_prompt }
  if !messages.isEmpty then pyListInsert messages (-3) system_message
  else messages ++ [system_message]

theorem pyListInsert_neg3 {α : Type} (l : List α) (x : α) :
    pyListInsert l (-3) x = l.take (l.length - 3) ++ x :: l.drop (l.length - 3) := by
  unfold pyListInsert
  have h : (((l.length : Int)) + (-3)).toNat = l.length - 3 := by omega
  norm_num [h]

theorem historyMessages_length (isEm : Char → Bool) (hist : List HistoryRec) :
    (historyMessages isEm hist).length = min hist.length 6 := by
  simp [historyMessages]
  omega

/-- C10: in the message list built by `build_and_send_messages_openai`,
when the history contributes `n` conversation messages the system prompt is
inserted at clamped index `n - 3`: the sole message on empty history; with
`n ≥ 1` the list is `older ++ system :: recent` where `older` is the first
`n - 3` conversation messages, so for `n ≤ 3` the system prompt is the
first message, and for `n > 3` it sits after the `n - 3` older messages
with exactly the 3 most recent ones after it, not at the start. -/
theorem openai_system_prompt_position (isEm : Char → Bool) (sys : String)
    (hist : List HistoryRec) :
    (hist = [] →
      build_messages_openai isEm sys hist = [{ role := "system", text := sys }]) ∧
    (hist ≠ [] →
      build_messages_openai isEm sys hist
        = (historyMessages isEm hist).take ((historyMessages isEm hist).length - 3)
          ++ { role := "system", text := sys }
            :: (historyMessages isEm hist).drop ((historyMessages isEm hist).length - 3)) ∧
    (hist ≠ [] → (historyMessages isEm hist).length ≤ 3 →
      (build_messages_openai isEm sys hist).head? = some { role := "system", text := sys }) ∧
    (3 < (historyMessages isEm hist).length →
      (build_messages_openai isEm sys hist).head?
          = (historyMessages isEm hist).head? ∧
      ((historyMessages isEm hist).drop ((historyMessages isEm hist).length - 3)).length = 3 ∧
      (build_messages_openai isEm sys hist).length
          = (historyMessages isEm hist).length + 1) := by
  cases hist with
  | nil =>
    refine ⟨fun _ => ?_, fun h => absurd rfl h, fun h => absurd rfl h, fun h => ?_⟩
    · simp [build_messages_openai, historyMessages]
    · rw [historyMessages_length] at h
      simp at h
  | cons r t =>
    have hne : (historyMessages isEm (r :: t)) ≠ [] := by
      have := historyMessages_length isEm (r :: t)
      intro he
      rw [he] at this
      simp at this
      omega
    have hbuild : build_messages_openai isEm sys (r :: t)
        = pyListInsert (historyMessages isEm (r :: t)) (-3)
            { role := "system", text := sys } := by
      unfold build_messages_openai
      simp [hne]
    have heq : build_messages_openai isEm sys (r :: t)
        = (historyMessages isEm (r :: t)).take ((historyMessages isEm (r :: t)).length - 3)
          ++ { role := "system", text := sys }
            :: (historyMessages isEm (r :: t)).drop ((historyMessages isEm (r :: t)).length - 3) := by
      rw [hbuild, pyListInsert_neg3]
    refine ⟨?_, ?_, ?_, ?_⟩
    · intro h
      cases h
    · intro _
      exact heq
    · intro _ hle
      rw [heq]
      have : (historyMessages isEm (r :: t)).length - 3 = 0 := by omega
      rw [this]
      simp
    · intro hgt
      refine ⟨?_, ?_, ?_⟩
      · rw [heq]
        have h1 : 0 < (historyMessages isEm (r :: t)).length - 3 := by omega
        cases hm : historyMessages isEm (r :: t) with
        | nil => exact absurd hm hne
        | cons m ms =>
          rw [hm] at h1
          obtain ⟨k, hk⟩ : ∃ k, (m :: ms).length - 3 = k + 1 :=
            ⟨(m :: ms).length - 4, by omega⟩
          rw [hk, List.take_succ_cons]
          simp
      · simp [List.length_drop]
        omega
      · rw [heq]
        simp [List.length_append, List.length_take, List.length_drop]
        omega

/-- A 4-message history (most recent first, as `load_sms_history` with
`order='desc'` returns it) for the C10 witness. -/
def sampleHistory : List HistoryRec :=
  [{ direction := "incoming", body := "m4" },
   { direction := "outgoing", body := "m3" },
   { direction := "incoming", body := "m2" },
   { direction := "outgoing", body := "m1" }]

theorem openai_system_prompt_position_witness :
    sampleHistory ≠ [] ∧
    build_messages_openai (fun _ => false) "SYS" sampleHistory
      = (historyMessages (fun _ => false) sampleHistory).take
          ((historyMessages (fun _ => false) sampleHistory).length - 3)
        ++ { role := "system", text := "SYS" }
          :: (historyMessages (fun _ => false) sampleHistory).drop
            ((historyMessages (fun _ => false) sampleHistory).length - 3) ∧
    build_messages_openai (fun _ => false) "SYS" sampleHistory
      = [{ role := "assistant", text := "m1" },
         { role := "system", text := "SYS" },
         { role := "user", text := "m2" },
         { role := "assistant", text := "m3" },
         { role := "user", text := "m4" }] :=
  ⟨by decide,
   (openai_system_prompt_position (fun _ => false) "SYS" sampleHistory).2.1 (by decide),
   by decide⟩

/-! ## Inbound SMS webhook handler (`/api/sms/callback`) -/

/-- The subscription row fields read by `validate_incomming_message` (the
query itself already filters `enabled=1, billing_error=0`). -/
structure SubRow where
  id : Nat
  user_id : Nat
deriving Repr, DecidableEq

/-- Python exceptions that can escape a step of the handler body. -/
inductive PyExc where
  /-- raised by flask `abort(403)` (werkzeug `Forbidden`, an `Exception`
  subclass) -/
  | httpForbidden
  /-- attribute access on `None` -/
  | attributeError
  /-- `TypeError` from `"\n".join` over a `None` entry -/
  | typeError
  /-- an SDK or network call raised -/
  | apiError
deriving Repr, DecidableEq

/-- Environment of `twilio_callback`: oracles for the signature validator,
the Twilio REST lookups, the database queries and the downstream network
calls. -/
structure CallbackEnv where
  /-- result of `validator.validate(url, post_vars, signature)` -/
  signature_ok : Bool
  /-- sid of the first entry of
  `client.incoming_phone_numbers.list(phone_number=to_number)` -/
  phone_sid_for : String → Option String
  /-- `phonenumbers.parse(from_number)` as `(country_code, national_number)`;
  `none` models a raised `NumberParseException` -/
  parse_phone : String → Option (Nat × Nat)
  /-- `Subscription.query.filter_by(twillio_number_sid=sid, enabled=1,
  billing_error=0).first()` -/
  find_subscription : String → Option SubRow
  /-- `MobileNumber.query.filter_by(user_id, subscription_id, country_code,
  mobile_number).first()`; `some ()` means the row exists -/
  find_mobile : Nat → Nat → Nat → Nat → Option Unit
  /-- whether the `db.session.commit()` of `save_sms_history` succeeds
  (the function catches its own exceptions and rolls back) -/
  save_ok : Bool
  user_prefs : Option UserPreference
  assistant_prefs : Option AssistantPreference
  enrich : EnrichOracles
  /-- `load_sms_history(user_id, subscription_id, order='desc')` -/
  chat_history : List HistoryRec
  /-- the chat-completion output; `none` models a raised API error -/
  openai_response : Option String
  /-- telephony send per part -/
  send_sms : List Char → Option String
  isEmojiLike : Char → Bool
  now_utc : String

/-- The Twilio form fields the handler reads (`MessageSid`/`SmsStatus`
carry the `post_vars.get` defaults already applied). -/
structure SmsRequest where
  From : String
  To : String
  Body : String
  MessageSid : String
  SmsStatus : String
deriving Repr, DecidableEq

/-- `validate_incomming_message(from_number, phone_sid)`: parse the origin
number, look up the enabled subscription for the Twilio number sid, check
the subscriber's `MobileNumber` row, and return `(user_id,
subscription_id)`.  Every failure — including the `AttributeError` raised
by reading `subscription.user_id` off a `None` query result, and the
`NumberParseException` from a malformed origin — is caught by the
function's own `except` and yields `(None, None)`. -/
def validate_incomming_message (env : CallbackEnv) (from_number phone_sid : String) :
    Option Nat × Option Nat :=
  match env.parse_phone from_number with
  | none => (none, none)
  | some (country_code, mobile_number) =>
    match env.find_subscription phone_sid with
    | none => (none, none)
    | some subscription =>
      if subscription.user_id = 0 ∨ subscription.id = 0 then (none, none)
      else
        match env.find_mobile subscription.user_id subscription.id
            country_code mobile_number with
        | none => (none, none)
        | some _ => (some subscription.user_id, some subscription.id)

/-- Observable result of the webhook handler: HTTP status, response body,
and the History rows committed, in order. -/
structure HandlerResult where
  status : Nat
  body : String
  writes : List HistoryWrite
deriving Repr, DecidableEq

/-- The `try`-block body of `twilio_callback`; `.error (e, ws)` is an
exception escaping the block with the rows already committed. -/
def twilio_callback_try (env : CallbackEnv) (req : SmsRequest) :
    Except (PyExc × List HistoryWrite) (Nat × String × List HistoryWrite) :=
  if !env.signature_ok then
    .error (.httpForbidden, [])   -- `abort(403)` raises
  else
    match env.phone_sid_for req.To with
    | none => .ok (403, "Unauthorized", [])
    | some twilio_phone_number_sid =>
      match validate_incomming_message env req.From twilio_phone_number_sid with
      | (some user_id, some subscription_id) =>
        if user_id = 0 || subscription_id = 0 then .ok (403, "Unauthorized", [])
        else
          let writes0 : List HistoryWrite :=
            if env.save_ok then
              [{ user_id := user_id, subscription_id := subscription_id,
                 message_sid := some req.MessageSid, direction := "incoming",
                 from_number := req.From, to_number := req.To,
                 body := some req.Body, status := some req.SmsStatus }]
            else []
          match env.user_prefs with
          | none => .error (.attributeError, writes0)
          | some uprefs =>
            let message_answers := process_questions_answers env.enrich req.Body
              uprefs.user_location_full uprefs.user_location_country
            match env.assistant_prefs with
            | none => .error (.attributeError, writes0)
            | some aprefs =>
              let extra : ExtraInfo := match message_answers with
                | none => .nullv
                | some l => .list l
              match build_system_prompt uprefs aprefs env.now_utc extra none with
              | .error _ => .error (.typeError, writes0)
              | .ok prompt =>
                let _messages := build_messages_openai env.isEmojiLike prompt env.chat_history
                match env.openai_response with
                | none => .error (.apiError, writes0)
                | some outputRaw =>
                  let outgoing_message := clean_string env.isEmojiLike outputRaw
                  let sr := send_reply env.isEmojiLike env.send_sms user_id subscription_id
                              outgoing_message req.From req.To true
                  let writes1 := writes0 ++ (match sr.write with
                    | some w => [w]
                    | none => [])
                  .ok (200, "OK", writes1)
      | _ => .ok (403, "Unauthorized", [])

/-- `twilio_callback`: the route body.  Any exception raised inside the
`try` — including the `Forbidden` raised by `abort(403)`, which subclasses
`Exception` — is caught by the route's blanket `except Exception` and
turned into a 500. -/
def twilio_callback (env : CallbackEnv) (req : SmsRequest) : HandlerResult :=
  match twilio_callback_try env req with
  | .ok (status, body, writes) => { status := status, body := body, writes := writes }
  | .error (_, writes) => { status := 500, body := "Internal Server Error", writes := writes }

/-- C1 (code bug): on an invalid signature the handler writes no History
row, but it returns 500, not the intended 403: `abort(403)` raises
`werkzeug.exceptions.Forbidden`, an `Exception` subclass, so the route's
own `except Exception` catches it and returns
`('Internal Server Error', 500)`. -/
theorem invalid_signature_returns_500_no_write (env : CallbackEnv) (req : SmsRequest)
    (hsig : env.signature_ok = false) :
    twilio_callback env req
      = { status := 500, body := "Internal Server Error", writes := [] } ∧
    (twilio_callback env req).status ≠ 403 := by
  have h : twilio_callback env req
      = { status := 500, body := "Internal Server Error", writes := [] } := by
    unfold twilio_callback twilio_callback_try
    simp [hsig]
  exact ⟨h, by rw [h]; decide⟩

/-- Base environment for the handler witnesses: a fully-resolvable inbound
message. -/
def sampleEnvBase : CallbackEnv :=
  { signature_ok := true
    phone_sid_for := fun t => if t = "+15551230000" then some "PN123" else none
    parse_phone := fun f => if f = "+14165550101" then some (1, 4165550101) else none
    find_subscription := fun sid => if sid = "PN123" then some { id := 7, user_id := 42 } else none
    find_mobile := fun uid subid cc mn =>
      if uid = 42 && subid = 7 && cc = 1 && mn = 4165550101 then some () else none
    save_ok := true
    user_prefs := some sampleUser
    assistant_prefs := some sampleAssistant
    enrich := { extractResponse := fun _ => "No questions were found."
                fetchData := fun _ _ => none
                answerQuestion := fun _ _ => none }
    chat_history := []
    openai_response := some "Hello!"
    send_sms := fun _ => some "SM1"
    isEmojiLike := fun _ => false
    now_utc := sampleNow }

/-- A signed, resolvable inbound request used by the handler witnesses. -/
def sampleRequest : SmsRequest :=
  { From := "+14165550101", To := "+15551230000", Body := "Hi there",
    MessageSid := "SMincoming", SmsStatus := "received" }

theorem invalid_signature_returns_500_no_write_witness :
    ({ sampleEnvBase with signature_ok := false } : CallbackEnv).signature_ok = false ∧
    twilio_callback { sampleEnvBase with signature_ok := false } sampleRequest
      = { status := 500, body := "Internal Server Error", writes := [] } :=
  ⟨rfl, (invalid_signature_returns_500_no_write
          { sampleEnvBase with signature_ok := false } sampleRequest rfl).1⟩

/-- C2: on a validly signed request, if the destination number cannot be
resolved (no Twilio incoming number, or no enabled subscription for its
sid) or the origin number does not resolve to a matching `MobileNumber`
row — every such failure makes `validate_incomming_message` return
`(None, None)` — the handler returns 403 Unauthorized, not 500, and writes
no History row. -/
theorem resolution_failure_returns_403 (env : CallbackEnv) (req : SmsRequest)
    (hsig : env.signature_ok = true)
    (hres : env.phone_sid_for req.To = none ∨
      ∃ sid, env.phone_sid_for req.To = some sid ∧
        validate_incomming_message env req.From sid = (none, none)) :
    twilio_callback env req = { status := 403, body := "Unauthorized", writes := [] } ∧
    (twilio_callback env req).status ≠ 500 := by
  have h : twilio_callback env req
      = { status := 403, body := "Unauthorized", writes := [] } := by
    unfold twilio_callback twilio_callback_try
    rcases hres with h1 | ⟨sid, h1, h2⟩
    · simp [hsig, h1]
    · simp [hsig, h1, h2]
  exact ⟨h, by rw [h]; decide⟩

theorem resolution_failure_returns_403_witness :
    (validate_incomming_message
        { sampleEnvBase with find_mobile := fun _ _ _ _ => none }
        sampleRequest.From "PN123" = (none, none)) ∧
    twilio_callback { sampleEnvBase with find_mobile := fun _ _ _ _ => none } sampleRequest
      = { status := 403, body := "Unauthorized", writes := [] } :=
  ⟨rfl,
   (resolution_failure_returns_403
      { sampleEnvBase with find_mobile := fun _ _ _ _ => none } sampleRequest rfl
      (Or.inr ⟨"PN123", rfl, rfl⟩)).1⟩

end Quant
